import Mathlib

/-!
Verification of the CI job-runner agent (src/main.go) against its design
specification.  The Go program is shallowly embedded: every external effect
(git subprocess, script subprocess, filesystem access, HTTP call) is resolved
by an explicit oracle (`World`, `PollResult`, `LeaseFileState`), and each
embedded function additionally returns the ordered list of side-effecting
operations it performed, so that ordering properties ("no git command runs
before the failure", "after_script still runs") are provable.
-/

set_option maxRecDepth 100000

namespace Runner

/-- Constant `refsRemotes` (src/main.go:83). -/
def refsRemotes : String := "refs/remotes/"

/-- Constant `refsTags` (src/main.go:84). -/
def refsTags : String := "refs/tags/"

/-- Constant `origin` (src/main.go:85). -/
def origin : String := "origin/"

/-- Embedded `ConfigJob` (src/main.go:33-39).  Go slices decoded from JSON distinguish
`nil` from a present list; `none` models a `nil` slice. -/
structure ConfigJob where
  ProjectID : String
  JobName : String
  BeforeScript : Option (List String)
  Script : Option (List String)
  AfterScript : Option (List String)
deriving Repr, DecidableEq

/-- Embedded `Config` (src/main.go:16-31).  `Token`, `ConnectionTimeout`, `Shell`,
`WorkDir` and `Env` only feed I/O plumbing that the oracle resolves, so they
are carried but unused by the embedded logic. -/
structure Config where
  Token : String
  ConnectionTimeout : Int
  TimeoutBetweenJobs : Int
  Shell : String
  WorkDir : String
  SavePassedJobs : Bool
  DoMerge : Bool
  Protection : Bool
  Jobs : List ConfigJob
deriving Repr, DecidableEq

/-- Embedded `Variable` (src/main.go:63-67). -/
structure Variable where
  Key : String
  Value : String
  Public : Bool
deriving Repr, DecidableEq

/-- Embedded `Step` (src/main.go:69-72). -/
structure Step where
  Name : String
  Script : Option (List String)
deriving Repr, DecidableEq

/-- Embedded `GitInfo` (src/main.go:56-61). -/
structure GitInfo where
  RepoURL : String
  Ref : String
  Sha : String
  RefType : String
deriving Repr, DecidableEq

/-- Embedded `JobInfo` (src/main.go:50-54); `ProjectID` is the json.Number's string. -/
structure JobInfo where
  Stage : String
  Name : String
  ProjectID : String
deriving Repr, DecidableEq

/-- Embedded `Job` (src/main.go:41-48); `ID` is the json.Number's string. -/
structure Job where
  ID : String
  Token : String
  JobInfo : JobInfo
  GitInfo : GitInfo
  Variables : List Variable
  Steps : List Step
deriving Repr, DecidableEq

/-- Embedded `State`, the per-job Report State (src/main.go:74-79). -/
structure State where
  Token : String
  State : String
  Failure : String
  ExitCode : Int
deriving Repr, DecidableEq

/-- The dynamic type of a Go `error` value as discriminated by main's type
switch (src/main.go:162-174): `*exec.ExitError` (carrying the subprocess exit
code), `APIError`, or any other error value. -/
inductive GoError
| exitError (code : Int)
| apiError (msg : String)
| otherError
deriving Repr, DecidableEq

/-- One side-effecting operation performed while handling a job, in program
order.  `gitClone`/`gitFetch`/`gitCheckout`/`gitMerge`/`gitResetMerge` are the
git subprocesses; `runScript` is one shell subprocess fed a phase's lines;
`setMergedTarget`/`savePassedJob`/`removeMergedRefs` are the cache writes. -/
inductive Event
| setEnv (key value : String)
| gitClone (url : String)
| gitFetch (args : List String)
| gitCheckout (ref : String)
| gitMerge (branch : String)
| gitResetMerge
| removeMergedRefs (targetName : String)
| runScript (script : List String)
| setMergedTarget (targetName mergeID : String)
| savePassedJob (mergeID : String)
deriving Repr, DecidableEq

/-- Whether an event is a git subprocess invocation. -/
def Event.isGit : Event → Bool
| .gitClone _ => true
| .gitFetch _ => true
| .gitCheckout _ => true
| .gitMerge _ => true
| .gitResetMerge => true
| _ => false

/-- Whether an event is a script-phase subprocess or a cache write (pass
marker or merged-target ref). -/
def Event.isScriptOrCacheWrite : Event → Bool
| .runScript _ => true
| .setMergedTarget _ _ => true
| .savePassedJob _ => true
| _ => false

/-- Whether an event is one the clone-or-fetch stage can emit. -/
def Event.isPrepEvent : Event → Bool
| .setEnv _ _ => true
| .gitClone _ => true
| .gitFetch _ => true
| _ => false

/-- Outcome of one `cmd.Run()` of a script phase: clean exit, non-zero exit
(`*exec.ExitError` with that code), or a failure to run at all (any other
error value, e.g. the shell binary missing). -/
inductive ScriptResult
| ok
| exitErr (code : Int)
| startErr
deriving Repr, DecidableEq

/-- Outcome of `os.Mkdir(projDir, ...)` (src/main.go:370): directory newly
created (`err == nil`), already existing (`os.IsExist`), or any other error. -/
inductive MkdirOutcome
| created
| alreadyExists
| ioErr
deriving Repr, DecidableEq

/-- Oracle resolving every external effect one `handleJob` call can make.
`targetRefBefore`/`targetRefAfter` are the contents of the loose ref file
`.git/refs/remotes/origin/<target>` as read by `getTarget` before and after
the fetch (`none` = file absent); `mergedRef` is the memoized merge head file
`.git/refs/merged/<target>/<mergeID>`; `mergeOut` is `some stdout` iff the
`git merge` subprocess succeeded.  Each phase has a run outcome and the bytes
it wrote to the trace. -/
structure World where
  mkdirAllOk : Bool
  mkdirProj : MkdirOutcome
  cloneOk : Bool
  fetchOk : Bool
  targetRefBefore : Option String
  targetRefAfter : Option String
  mergedRef : Option String
  checkoutOk : Bool
  mergeOut : Option String
  beforeRes : ScriptResult
  beforeOut : String
  scriptRes : ScriptResult
  scriptOut : String
  afterRes : ScriptResult
  afterOut : String
deriving Repr, DecidableEq

/-- Embedded `getConfigJob` (src/main.go:347-356): first configured job whose project
id is the wildcard `""` or the job's project id, with a matching job name.
The Go function returns `(before, script, after, found)`; `none` is
`found == false`. -/
def getConfigJob (cfg : Config) (job : Job) : Option ConfigJob :=
  cfg.Jobs.find? fun val =>
    (val.ProjectID == "" || val.ProjectID == job.JobInfo.ProjectID) &&
      val.JobName == job.JobInfo.Name

/-- The variable-scan loop of `handleJob` (src/main.go:378-395): the value of
the last variable with the given key, `""` if none. -/
def scanVar (vars : List Variable) (key : String) : String :=
  vars.foldl (fun acc val => if val.Key == key then val.Value else acc) ""

/-- The steps-scan loop of `handleJob` (src/main.go:464-477): the script of
the last step with the given name (`none` if never assigned). -/
def lastStep (steps : List Step) (name : String) : Option (List String) :=
  steps.foldl (fun acc val => if val.Name == name then val.Script else acc) none

/-- Embedded `getTarget` (src/main.go:538-550): read the loose ref file, `""` when it
cannot be opened.  The Go code reads a fixed 32 bytes; we model the string
that read yields. -/
def getTarget (refFile : Option String) : String := refFile.getD ""

/-- Embedded `getMergedTarget` (src/main.go:552-564): the memoized merge head file's
content, or `origin/<target>` when the file cannot be opened. -/
def getMergedTarget (mergedRef : Option String) (targetName : String) : String :=
  match mergedRef with
  | some s => s
  | none => origin ++ targetName

/-- The merge-job test of `handleJob` (src/main.go:376). -/
def isMergeJob (cfg : Config) (job : Job) : Bool :=
  cfg.DoMerge && (job.GitInfo.Ref.take 20 == "refs/merge-requests/")

/-- Embedded `handleScript`'s `cmd.Run()` outcome as a Go error value
(src/main.go:503-516). -/
def handleScript (res : ScriptResult) : Option GoError :=
  match res with
  | .ok => none
  | .exitErr code => some (.exitError code)
  | .startErr => some .otherError

/-- The three phase scripts of a job: from the matched configured job
(src/main.go:360), else from the job's steps (src/main.go:464-477). -/
def phasesOf (cfg : Config) (job : Job) :
    Option (List String) × Option (List String) × Option (List String) :=
  match getConfigJob cfg job with
  | some cj => (cj.BeforeScript, cj.Script, cj.AfterScript)
  | none => (lastStep job.Steps "before_script", lastStep job.Steps "script",
      lastStep job.Steps "after_script")

/-- Result of one `handleJob` call: the returned Go error (`none` = success),
the ordered operations performed, and the bytes appended to the trace. -/
structure HJResult where
  err : Option GoError
  events : List Event
  trace : String
deriving Repr, DecidableEq

/-- The phase execution of `handleJob` (src/main.go:479-491): run
`before_script`; on its failure return at once (script and after_script are
skipped); otherwise run `script` recording its error, then `after_script`
whose error is dropped.  A `none` phase (nil slice) is skipped. -/
def runPhases (before script after : Option (List String)) (w : World) : HJResult :=
  let bef : Option GoError × List Event × String :=
    match before with
    | some b => (handleScript w.beforeRes, [Event.runScript b], w.beforeOut)
    | none => (none, [], "")
  match bef with
  | (some e, ev, tr) => ⟨some e, ev, tr⟩
  | (none, ev, tr) =>
    let scr : Option GoError × List Event × String :=
      match script with
      | some s => (handleScript w.scriptRes, [Event.runScript s], w.scriptOut)
      | none => (none, [], "")
    let aft : List Event × String :=
      match after with
      | some a => ([Event.runScript a], w.afterOut)
      | none => ([], "")
    ⟨scr.1, ev ++ scr.2.1 ++ aft.1, tr ++ scr.2.2 ++ aft.2⟩

/-- The env-var export of the variable-scan loop (src/main.go:380-382): one
`setEnv` per public variable, in order. -/
def envEventsOf (job : Job) : List Event :=
  (job.Variables.filter fun v => v.Public).map fun v => Event.setEnv v.Key v.Value

/-- Embedded `targetName` after the variable-scan loop (src/main.go:385-386). -/
def targetNameOf (cfg : Config) (job : Job) : String :=
  if isMergeJob cfg job then scanVar job.Variables "CI_MERGE_REQUEST_TARGET_BRANCH_NAME"
  else ""

/-- Embedded `sourceName` after the variable-scan loop (src/main.go:388-389). -/
def sourceNameOf (cfg : Config) (job : Job) : String :=
  if isMergeJob cfg job then scanVar job.Variables "CI_MERGE_REQUEST_SOURCE_BRANCH_NAME"
  else ""

/-- Embedded `mergeID` after the variable-scan loop (src/main.go:391-392). -/
def mergeIDOf (cfg : Config) (job : Job) : String :=
  if isMergeJob cfg job then scanVar job.Variables "CI_MERGE_REQUEST_IID" else ""

/-- The clone-or-fetch stage of `handleJob` (src/main.go:397-431): a freshly
created project directory is cloned; an existing one is fetched — for a merge
job the old target ref is read first and target+source are fetched in one
call; otherwise the ref type selects the ref namespace, failing closed on an
unknown type.  `Except.error` is `handleJob`'s early return; success carries
`oldTarget` and the events so far. -/
def prepareRepo (cfg : Config) (job : Job) (w : World) :
    Except HJResult (String × List Event) :=
  let envEvents := envEventsOf job
  if w.mkdirProj == MkdirOutcome.created then
    if w.cloneOk then Except.ok ("", envEvents ++ [Event.gitClone job.GitInfo.RepoURL])
    else Except.error ⟨some (.apiError ""), envEvents ++ [Event.gitClone job.GitInfo.RepoURL], ""⟩
  else if isMergeJob cfg job then
    let targetName := targetNameOf cfg job
    let sourceName := sourceNameOf cfg job
    let args := ["fetch", job.GitInfo.RepoURL,
      "+" ++ targetName ++ ":" ++ refsRemotes ++ origin ++ targetName,
      "+" ++ sourceName ++ ":" ++ refsRemotes ++ origin ++ sourceName]
    if w.fetchOk then
      Except.ok (getTarget w.targetRefBefore, envEvents ++ [Event.gitFetch args])
    else Except.error ⟨some (.apiError ""), envEvents ++ [Event.gitFetch args], ""⟩
  else
    let folder :=
      if job.GitInfo.RefType == "branch" then some refsRemotes
      else if job.GitInfo.RefType == "tag" then some refsTags
      else none
    match folder with
    | none => Except.error ⟨some (.apiError ""), envEvents, ""⟩
    | some fld =>
      let args := ["fetch", job.GitInfo.RepoURL,
        "+" ++ job.GitInfo.Ref ++ ":" ++ fld ++ job.GitInfo.Ref]
      if w.fetchOk then Except.ok ("", envEvents ++ [Event.gitFetch args])
      else Except.error ⟨some (.apiError ""), envEvents ++ [Event.gitFetch args], ""⟩

/-- The checkout / merge / phases / cache-write stage of `handleJob`
(src/main.go:433-500).  Merge jobs: if the fresh target ref equals
`oldTarget`, the memoized head becomes the checkout base, else the
`refs/merged/<target>` namespace is removed; checkout; merge, whose failure
resets and fails the job, and whose two exact stdouts short-circuit to
success; then phases, and on success the merged-target write plus the
optional pass marker.  Plain jobs: checkout the sha, then phases. -/
def checkoutAndRun (cfg : Config) (job : Job) (w : World) (oldTarget : String)
    (ev0 : List Event) : HJResult :=
  if isMergeJob cfg job then
    let targetName := targetNameOf cfg job
    let sourceName := sourceNameOf cfg job
    let mergeID := mergeIDOf cfg job
    let target0 := getTarget w.targetRefAfter
    let td :=
      if target0 == oldTarget then (getMergedTarget w.mergedRef targetName, ev0)
      else (target0, ev0 ++ [Event.removeMergedRefs targetName])
    let target := td.1
    let ev1 := td.2
    if !w.checkoutOk then
      ⟨some (.apiError ""), ev1 ++ [Event.gitCheckout target], ""⟩
    else
      match w.mergeOut with
      | none =>
        ⟨some (.apiError ""),
          ev1 ++ [Event.gitCheckout target, Event.gitMerge (origin ++ sourceName),
            Event.gitResetMerge], ""⟩
      | some data =>
        if data == "Already up to date.\n" ||
            data == "Merge made by the 'recursive' strategy.\n" then
          ⟨none, ev1 ++ [Event.gitCheckout target, Event.gitMerge (origin ++ sourceName)], ""⟩
        else
          let ph := runPhases (phasesOf cfg job).1 (phasesOf cfg job).2.1
            (phasesOf cfg job).2.2 w
          let ev2 := ev1 ++ [Event.gitCheckout target,
            Event.gitMerge (origin ++ sourceName)] ++ ph.events
          match ph.err with
          | none =>
            ⟨none, ev2 ++ [Event.setMergedTarget targetName mergeID] ++
              (if cfg.SavePassedJobs then [Event.savePassedJob mergeID] else []), ph.trace⟩
          | some e => ⟨some e, ev2, ph.trace⟩
  else
    if !w.checkoutOk then
      ⟨some (.apiError ""), ev0 ++ [Event.gitCheckout job.GitInfo.Sha], ""⟩
    else
      let ph := runPhases (phasesOf cfg job).1 (phasesOf cfg job).2.1
        (phasesOf cfg job).2.2 w
      ⟨ph.err, ev0 ++ [Event.gitCheckout job.GitInfo.Sha] ++ ph.events, ph.trace⟩

/-- Embedded `handleJob` (src/main.go:358-501): protection check; `MkdirAll(WorkDir)`;
`Mkdir(projDir)` whose `err == nil` (newly created) selects clone over fetch
in `prepareRepo`; then `checkoutAndRun`. -/
def handleJob (cfg : Config) (job : Job) (w : World) : HJResult :=
  if !(getConfigJob cfg job).isSome && cfg.Protection then
    ⟨some (.apiError ""), [], ""⟩
  else if !w.mkdirAllOk then
    ⟨some .otherError, [], ""⟩
  else if w.mkdirProj == MkdirOutcome.ioErr then
    ⟨some .otherError, [], ""⟩
  else
    match prepareRepo cfg job w with
    | Except.error r => r
    | Except.ok (oldTarget, ev0) => checkoutAndRun cfg job w oldTarget ev0

/-- Embedded `sendTrace` (src/main.go:320-345): the PATCH is performed iff the trace's
byte length is positive; when it is, the Content-Range header is
`"0-" ++ byte count`.  Result: (upload performed, Content-Range header). -/
def sendTrace (trace : String) : Bool × Option String :=
  if trace.utf8ByteSize ≤ 0 then (false, none)
  else (true, some ("0-" ++ toString trace.utf8ByteSize))

/-- The per-iteration Report State computation (src/main.go:153-175): the
`state` variable is mutated in place, `Token`/`State`/`ExitCode` are always
set, then the error's dynamic type selects the failure classification.  Note
the Go code never clears `state.Failure` on a later success. -/
def updateState (prev : State) (jobToken : String) (err : Option GoError) : State :=
  let s : State := { prev with Token := jobToken, State := "success", ExitCode := 0 }
  match err with
  | none => s
  | some (.exitError code) =>
    { s with State := "failed", ExitCode := code, Failure := "script_failure" }
  | some (.apiError _) =>
    { s with State := "failed", ExitCode := 127, Failure := "api_failure" }
  | some .otherError =>
    { s with State := "failed", ExitCode := 128, Failure := "runner_system_failure" }

/-- Outcome of the HTTP poll inside `requestJob` (src/main.go:260-284):
status 204 (no job), status 201 with a decodable body, or anything else —
transport error, unexpected status, or undecodable body — which `printErr`s
(the process exits non-zero). -/
inductive PollResult
| noJob
| newJob (job : Job)
| requestFailed
deriving Repr, DecidableEq

/-- What one acquisition returned: the job handed to the loop body, the lease
file content afterwards, whether the coordinator was polled, and whether the
job was written to the lease file before being returned. -/
structure AcquireOut where
  job : Option Job
  leaseFile : Option Job
  polled : Bool
  persisted : Bool
deriving Repr, DecidableEq

/-- Embedded `requestJob` (src/main.go:254-293): a held (already in-memory) job is
returned as-is without any HTTP call; otherwise the coordinator is polled —
204 yields no job, 201 decodes the job which is then written to
`WorkDir/job.json` (the `os.OpenFile` error being discarded, so on a failed
open the job is returned unpersisted), and every other outcome is fatal.
The persisted lease file is never read here. -/
def requestJob (job : Option Job) (poll : PollResult) (persistOk : Bool)
    (leaseFile : Option Job) : Except Unit AcquireOut :=
  match job with
  | some j => Except.ok ⟨some j, leaseFile, false, false⟩
  | none =>
    match poll with
    | .noJob => Except.ok ⟨none, leaseFile, true, false⟩
    | .requestFailed => Except.error ()
    | .newJob j =>
      if persistOk then Except.ok ⟨some j, some j, true, true⟩
      else Except.ok ⟨some j, leaseFile, true, false⟩

/-- State of the persisted lease file `WorkDir/job.json` at startup: absent,
present but unopenable (`os.Open` fails — the error is discarded at
src/main.go:123), or present and opened, in which case its JSON body decodes
to a job or fails to decode. -/
inductive LeaseFileState
| absent
| openFailed
| present (decodesTo : Option Job)
deriving Repr, DecidableEq

/-- The startup lease load (src/main.go:122-132): an openable file that fails
to decode is fatal (`printErr`); a file that cannot be opened is silently
treated as absent. -/
def loadLease : LeaseFileState → Except Unit (Option Job)
| .absent => Except.ok none
| .openFailed => Except.ok none
| .present (some j) => Except.ok (some j)
| .present none => Except.error ()

/-- The mutable state carried across main-loop iterations: the in-memory
`job` variable, the persisted lease file's content, and the reused `state`
struct. -/
structure ProcState where
  job : Option Job
  leaseFile : Option Job
  state : State
deriving Repr, DecidableEq

/-- Oracle for one main-loop iteration: the poll outcome, whether the lease
write would succeed, and the `handleJob` oracle. -/
structure IterWorld where
  poll : PollResult
  persistOk : Bool
  hw : World
deriving Repr, DecidableEq

/-- Outcome of one iteration of main's for loop: the loop `break`s (no job
was available; the lease file content at that point is carried), the process
exits non-zero inside `requestJob`, or the body ran a job — sending its trace
(`traceUploaded`), sending the report `report`, sleeping iff
`TimeoutBetweenJobs > 0` (`slept`) — and the loop continues with `next`. -/
inductive IterOutcome
| exitLoop (leaseFile : Option Job)
| fatal
| continued (next : ProcState) (report : State) (traceUploaded : Bool)
    (slept : Bool) (events : List Event)
deriving Repr, DecidableEq

/-- One iteration of main's for loop (src/main.go:141-185): acquire, handle,
classify, send trace, send report, clear the in-memory job, sleep if
configured, loop.  The lease file is not touched after the report. -/
def loopStep (cfg : Config) (ps : ProcState) (iw : IterWorld) : IterOutcome :=
  match requestJob ps.job iw.poll iw.persistOk ps.leaseFile with
  | Except.error _ => .fatal
  | Except.ok acq =>
    match acq.job with
    | none => .exitLoop acq.leaseFile
    | some job =>
      let r := handleJob cfg job iw.hw
      let st := updateState ps.state job.Token r.err
      .continued ⟨none, acq.leaseFile, st⟩ st (sendTrace r.trace).1
        (decide (0 < cfg.TimeoutBetweenJobs)) r.events

/-- Embedded `os.Remove(WorkDir + "/job.json")` after the loop (src/main.go:187): the
lease file is deleted only once the loop has exited. -/
def afterLoop (_leaseFile : Option Job) : Option Job := none

/-- Whether the iteration ran a job and the loop goes on. -/
def IterOutcome.isContinued : IterOutcome → Bool
| .continued _ _ _ _ _ => true
| _ => false

/-- The lease file content once the iteration is over. -/
def IterOutcome.leaseAfter : IterOutcome → Option Job
| .continued next _ _ _ _ => next.leaseFile
| .exitLoop l => l
| .fatal => none

/-- Whether the iteration slept before looping. -/
def IterOutcome.didSleep : IterOutcome → Bool
| .continued _ _ _ slept _ => slept
| _ => false

/-- Whether the iteration uploaded a trace. -/
def IterOutcome.didUpload : IterOutcome → Bool
| .continued _ _ uploaded _ _ => uploaded
| _ => false

/-- The events of the iteration's job handling. -/
def IterOutcome.eventsOf : IterOutcome → List Event
| .continued _ _ _ _ ev => ev
| _ => []

/-- The report sent by the iteration, if it handled a job. -/
def IterOutcome.reportOf : IterOutcome → Option State
| .continued _ report _ _ _ => some report
| _ => none

/-! Concrete instances used by counterexamples and witnesses. -/

/-- A blank prior Report State. -/
def baseState : State := ⟨"", "", "", 0⟩

/-- A configuration with merging on, protection off, no configured jobs. -/
def baseConfig : Config :=
  { Token := "rtok", ConnectionTimeout := 5, TimeoutBetweenJobs := 1, Shell := "sh",
    WorkDir := "/home/ci/.ci", SavePassedJobs := false, DoMerge := true,
    Protection := false, Jobs := [] }

/-- The three merge-request variables of a merge job. -/
def mrVariables : List Variable :=
  [⟨"CI_MERGE_REQUEST_TARGET_BRANCH_NAME", "main", false⟩,
   ⟨"CI_MERGE_REQUEST_SOURCE_BRANCH_NAME", "feat", false⟩,
   ⟨"CI_MERGE_REQUEST_IID", "7", false⟩]

/-- A merge-request job for MR 7, target `main`, source `feat`, with a lone
`script` step. -/
def baseMergeJob : Job :=
  { ID := "42", Token := "jtok",
    JobInfo := ⟨"test", "unit", "13"⟩,
    GitInfo := ⟨"https://example.com/r.git", "refs/merge-requests/7/head", "cafe1234", "branch"⟩,
    Variables := mrVariables,
    Steps := [⟨"script", some ["make"]⟩] }

/-- A plain branch job with the same step. -/
def basePlainJob : Job :=
  { baseMergeJob with
    GitInfo := ⟨"https://example.com/r.git", "main", "cafe1234", "branch"⟩,
    Variables := [] }

/-- A benign oracle: workspace exists, fetch/checkout succeed, the target ref
is unchanged across the fetch, no memoized head, merge already up to date,
all phases succeed silently. -/
def baseWorld : World :=
  { mkdirAllOk := true, mkdirProj := .alreadyExists, cloneOk := true, fetchOk := true,
    targetRefBefore := some "1111", targetRefAfter := some "1111", mergedRef := none,
    checkoutOk := true, mergeOut := some "Already up to date.\n",
    beforeRes := .ok, beforeOut := "", scriptRes := .ok, scriptOut := "",
    afterRes := .ok, afterOut := "" }

/-- A world whose `script` phase exits 3. -/
def wC1 : World := { baseWorld with scriptRes := .exitErr 3 }

/-- baseConfig with protection mode on (and no configured jobs). -/
def cfgC5 : Config := { baseConfig with Protection := true }

/-- A world set up for cache reuse: the target ref is unchanged across the
fetch and a memoized merge head `deadbeef` exists. -/
def wC2 : World := { baseWorld with mergedRef := some "deadbeef" }

/-- baseConfig with pass caching on. -/
def cfgC3 : Config := { baseConfig with SavePassedJobs := true }

/-- First poll of C3's scenario: the merge produces a new merge commit (the
stdout carries a diffstat, so it is not one of the two short-circuit
strings) and the script phase passes. -/
def wC3a : World :=
  { baseWorld with mergeOut := some "Merge made by the 'recursive' strategy.\n README | 1 +\n" }

/-- Second poll of C3's scenario: the memoized head `deadbeef` (the head the
job passed against) is present and checked out, but the source branch moved,
so the merge again produces a new commit and the phases run. -/
def wC3b : World :=
  { baseWorld with
      mergedRef := some "deadbeef",
      mergeOut := some "Merge made by the 'recursive' strategy.\n app.c | 2 +-\n",
      scriptOut := "out" }

/-- A world where `script` exits 3 and `after_script` itself exits 5. -/
def wC4 : World := { baseWorld with scriptRes := .exitErr 3, afterRes := .exitErr 5 }

/-- A loop state holding no job and no lease. -/
def psIdle : ProcState := ⟨none, none, baseState⟩

/-- An iteration oracle that polls a fresh job and persists it, with a world
that executes the job's script phase. -/
def iwRun : IterWorld :=
  ⟨.newJob baseMergeJob, true,
    { baseWorld with
        mergeOut := some "Merge made by the 'recursive' strategy.\n a | 1 +\n",
        scriptOut := "ok\n" }⟩

/-- A loop state holding job and lease for the same in-flight job. -/
def psHeld : ProcState := ⟨some baseMergeJob, some baseMergeJob, baseState⟩

/-! Helper lemmas about `runPhases`. -/

/-- Every `runPhases` error is an exit error or a start error of the
`before_script` or `script` phase; in particular it is never an `APIError`. -/
theorem runPhases_err_classes (before script after : Option (List String)) (w : World) :
    (runPhases before script after w).err = none ∨
    (∃ c, (runPhases before script after w).err = some (GoError.exitError c) ∧
       (w.beforeRes = ScriptResult.exitErr c ∨ w.scriptRes = ScriptResult.exitErr c)) ∨
    ((runPhases before script after w).err = some GoError.otherError ∧
       (w.beforeRes = ScriptResult.startErr ∨ w.scriptRes = ScriptResult.startErr)) := by
  rcases before with _ | b <;> rcases script with _ | s <;> rcases after with _ | a <;>
    rcases hb : w.beforeRes with _ | c | _ <;> rcases hs : w.scriptRes with _ | c2 | _ <;>
      simp [runPhases, handleScript, hb, hs]

/-- Embedded `runPhases` never produces an `APIError`. -/
theorem runPhases_no_api (before script after : Option (List String)) (w : World)
    (msg : String) : (runPhases before script after w).err ≠ some (GoError.apiError msg) := by
  rcases runPhases_err_classes before script after w with h | ⟨c, h, _⟩ | ⟨h, _⟩ <;>
    simp [h]

/-- Embedded `runPhases` succeeds iff every present phase other than `after_script`
ran cleanly. -/
theorem runPhases_err_none (before script after : Option (List String)) (w : World) :
    (runPhases before script after w).err = none ↔
      ((before = none ∨ w.beforeRes = ScriptResult.ok) ∧
       (script = none ∨ w.scriptRes = ScriptResult.ok)) := by
  rcases before with _ | b <;> rcases script with _ | s <;> rcases after with _ | a <;>
    rcases hb : w.beforeRes with _ | c | _ <;> rcases hs : w.scriptRes with _ | c2 | _ <;>
      simp [runPhases, handleScript, hb, hs]

/-- When every phase writes nothing, `runPhases` appends nothing. -/
theorem runPhases_trace_empty (before script after : Option (List String)) (w : World)
    (hb : w.beforeOut = "") (hs : w.scriptOut = "") (ha : w.afterOut = "") :
    (runPhases before script after w).trace = "" := by
  rcases before with _ | b <;> rcases script with _ | s <;> rcases after with _ | a <;>
    rcases hbr : w.beforeRes with _ | c | _ <;>
      simp [runPhases, handleScript, hb, hs, ha, hbr]

/-! Helper lemmas about the stages of `handleJob`. -/

/-- A `prepareRepo` early return is an `APIError` with an empty trace, and is
caused by a clone failure, a fetch failure, or an unknown ref type. -/
theorem prepareRepo_error (cfg : Config) (job : Job) (w : World) (r : HJResult)
    (h : prepareRepo cfg job w = Except.error r) :
    r.err = some (GoError.apiError "") ∧ r.trace = "" ∧
      ((w.mkdirProj = MkdirOutcome.created ∧ w.cloneOk = false) ∨
       (w.mkdirProj ≠ MkdirOutcome.created ∧ w.fetchOk = false) ∨
       (w.mkdirProj ≠ MkdirOutcome.created ∧ isMergeJob cfg job = false ∧
         job.GitInfo.RefType ≠ "branch" ∧ job.GitInfo.RefType ≠ "tag")) := by
  unfold prepareRepo at h
  repeat' split at h
  all_goals try injection h with h2
  all_goals try rw [← h2]
  all_goals simp_all

/-- A successful `prepareRepo` implies the clone or fetch succeeded. -/
theorem prepareRepo_ok (cfg : Config) (job : Job) (w : World) (oldTarget : String)
    (ev0 : List Event) (h : prepareRepo cfg job w = Except.ok (oldTarget, ev0)) :
    (w.mkdirProj = MkdirOutcome.created ∧ w.cloneOk = true ∧ oldTarget = "") ∨
    (w.mkdirProj ≠ MkdirOutcome.created ∧ w.fetchOk = true) := by
  unfold prepareRepo at h
  repeat' split at h
  all_goals simp_all

/-- When the needed clone or fetch succeeds, `prepareRepo` succeeds for a
merge job, and all its events are env exports, the clone, or the fetch. -/
theorem prepareRepo_succeeds (cfg : Config) (job : Job) (w : World)
    (h3 : w.mkdirProj = MkdirOutcome.created → w.cloneOk = true)
    (h4 : w.mkdirProj ≠ MkdirOutcome.created → w.fetchOk = true)
    (hm : isMergeJob cfg job = true) :
    ∃ oldTarget ev0, prepareRepo cfg job w = Except.ok (oldTarget, ev0) ∧
      ∀ e ∈ ev0, e.isPrepEvent = true := by
  unfold prepareRepo
  by_cases hc : (w.mkdirProj == MkdirOutcome.created) = true
  · rw [if_pos hc]
    rw [h3 (by simpa using hc)]
    refine ⟨"", _, rfl, ?_⟩
    intro e he
    rcases List.mem_append.mp he with hin | hin
    · rcases List.mem_map.mp hin with ⟨v, -, rfl⟩
      rfl
    · simp at hin
      subst hin
      rfl
  · rw [if_neg hc, if_pos hm]
    rw [h4 (by simpa using hc)]
    refine ⟨getTarget w.targetRefBefore, _, rfl, ?_⟩
    intro e he
    rcases List.mem_append.mp he with hin | hin
    · rcases List.mem_map.mp hin with ⟨v, -, rfl⟩
      rfl
    · simp at hin
      subst hin
      rfl

/-- When the checkout succeeds and the merge succeeds with one of the two
short-circuit stdouts, `checkoutAndRun` returns success at once, with only
the cache decision, the checkout and the merge as events past `ev0`, and an
empty trace. -/
theorem checkoutAndRun_skip (cfg : Config) (job : Job) (w : World) (oldTarget : String)
    (ev0 : List Event) (d : String)
    (hm : isMergeJob cfg job = true) (h5 : w.checkoutOk = true)
    (hd : w.mergeOut = some d)
    (hd2 : d = "Already up to date.\n" ∨ d = "Merge made by the 'recursive' strategy.\n") :
    ∃ ev1 target,
      (ev1 = ev0 ∨ ev1 = ev0 ++ [Event.removeMergedRefs (targetNameOf cfg job)]) ∧
      checkoutAndRun cfg job w oldTarget ev0 =
        ⟨none, ev1 ++ [Event.gitCheckout target,
          Event.gitMerge (origin ++ sourceNameOf cfg job)], ""⟩ := by
  have hskip : (d == "Already up to date.\n" ||
      d == "Merge made by the 'recursive' strategy.\n") = true := by
    rcases hd2 with rfl | rfl <;> simp
  unfold checkoutAndRun
  rw [hm, h5, hd]
  by_cases ht : (getTarget w.targetRefAfter == oldTarget) = true
  · refine ⟨ev0, getMergedTarget w.mergedRef (targetNameOf cfg job), Or.inl rfl, ?_⟩
    simp [ht, hskip]
  · refine ⟨ev0 ++ [Event.removeMergedRefs (targetNameOf cfg job)],
      getTarget w.targetRefAfter, Or.inr rfl, ?_⟩
    simp only [Bool.not_eq_true] at ht
    simp [ht, hskip]

/-- The trace of `checkoutAndRun` is empty or is the phases' trace. -/
theorem checkoutAndRun_trace (cfg : Config) (job : Job) (w : World)
    (oldTarget : String) (ev0 : List Event) :
    (checkoutAndRun cfg job w oldTarget ev0).trace = "" ∨
    (checkoutAndRun cfg job w oldTarget ev0).trace =
      (runPhases (phasesOf cfg job).1 (phasesOf cfg job).2.1
        (phasesOf cfg job).2.2 w).trace := by
  unfold checkoutAndRun
  repeat' split
  all_goals try (cases hE : (runPhases (phasesOf cfg job).1 (phasesOf cfg job).2.1
    (phasesOf cfg job).2.2 w).err)
  all_goals simp_all

/-- Every `checkoutAndRun` error is either the `APIError` of a checkout or
merge failure, or an error of the phases. -/
theorem checkoutAndRun_err_causes (cfg : Config) (job : Job) (w : World)
    (oldTarget : String) (ev0 : List Event) (e : GoError)
    (h : (checkoutAndRun cfg job w oldTarget ev0).err = some e) :
    (e = GoError.apiError "" ∧
      (w.checkoutOk = false ∨ (isMergeJob cfg job = true ∧ w.mergeOut = none))) ∨
    (runPhases (phasesOf cfg job).1 (phasesOf cfg job).2.1
      (phasesOf cfg job).2.2 w).err = some e := by
  unfold checkoutAndRun at h
  repeat' split at h
  all_goals try (cases hE : (runPhases (phasesOf cfg job).1 (phasesOf cfg job).2.1
    (phasesOf cfg job).2.2 w).err)
  all_goals simp_all

/-- When the protection gate passes and both directory creations succeed,
`handleJob` is `checkoutAndRun` applied to `prepareRepo`'s result. -/
theorem handleJob_gate (cfg : Config) (job : Job) (w : World) (oldTarget : String)
    (ev0 : List Event)
    (hgate : ¬(getConfigJob cfg job = none ∧ cfg.Protection = true))
    (h1 : w.mkdirAllOk = true) (h2 : w.mkdirProj ≠ MkdirOutcome.ioErr)
    (hpr : prepareRepo cfg job w = Except.ok (oldTarget, ev0)) :
    handleJob cfg job w = checkoutAndRun cfg job w oldTarget ev0 := by
  have hgb : (!(getConfigJob cfg job).isSome && cfg.Protection) = false := by
    rcases hcj : getConfigJob cfg job with _ | cj
    · have hp : cfg.Protection = false := by
        by_contra hp
        simp only [Bool.not_eq_false] at hp
        exact hgate ⟨hcj, hp⟩
      rw [hp]
      simp
    · simp
  have hioe : (w.mkdirProj == MkdirOutcome.ioErr) = false := by
    rcases hmk : w.mkdirProj <;> simp_all
  unfold handleJob
  rw [hgb, h1, hioe, hpr]
  simp

/-- On an existing workspace, a merge job's `prepareRepo` reads the old
target ref and issues the one two-refspec fetch. -/
theorem prepareRepo_fetch_merge (cfg : Config) (job : Job) (w : World)
    (h2 : w.mkdirProj ≠ MkdirOutcome.created) (hm : isMergeJob cfg job = true)
    (h4 : w.fetchOk = true) :
    prepareRepo cfg job w = Except.ok (getTarget w.targetRefBefore,
      envEventsOf job ++ [Event.gitFetch ["fetch", job.GitInfo.RepoURL,
        "+" ++ targetNameOf cfg job ++ ":" ++ refsRemotes ++ origin ++ targetNameOf cfg job,
        "+" ++ sourceNameOf cfg job ++ ":" ++ refsRemotes ++ origin ++
          sourceNameOf cfg job]]) := by
  have hc : (w.mkdirProj == MkdirOutcome.created) = false := by
    rcases hmk : w.mkdirProj <;> simp_all
  unfold prepareRepo
  rw [hc, hm, h4]
  simp

/-- On the cache-reuse path — unchanged target ref, memoized head `H` — the
checkout is of `H` and is immediately followed by the merge command. -/
theorem checkoutAndRun_reuse (cfg : Config) (job : Job) (w : World) (ev0 : List Event)
    (H : String)
    (hm : isMergeJob cfg job = true) (h5 : w.checkoutOk = true)
    (heq : (getTarget w.targetRefAfter == getTarget w.targetRefBefore) = true)
    (hmem : w.mergedRef = some H) :
    ∃ post, (checkoutAndRun cfg job w (getTarget w.targetRefBefore) ev0).events =
      ev0 ++ [Event.gitCheckout H, Event.gitMerge (origin ++ sourceNameOf cfg job)] ++
        post := by
  unfold checkoutAndRun
  rcases hmo : w.mergeOut with _ | d
  · refine ⟨[Event.gitResetMerge], ?_⟩
    simp [hm, h5, heq, hmem, hmo, getMergedTarget]
  · by_cases hskip : (d == "Already up to date.\n" ||
        d == "Merge made by the 'recursive' strategy.\n") = true
    · refine ⟨[], ?_⟩
      simp [hm, h5, heq, hmem, hmo, getMergedTarget, hskip]
    · rw [Bool.not_eq_true] at hskip
      rcases hpe : (runPhases (phasesOf cfg job).1 (phasesOf cfg job).2.1
          (phasesOf cfg job).2.2 w).err with _ | e
      · refine ⟨(runPhases (phasesOf cfg job).1 (phasesOf cfg job).2.1
            (phasesOf cfg job).2.2 w).events ++
            [Event.setMergedTarget (targetNameOf cfg job) (mergeIDOf cfg job)] ++
            (if cfg.SavePassedJobs then [Event.savePassedJob (mergeIDOf cfg job)]
             else []), ?_⟩
        simp [hm, h5, heq, hmem, hmo, getMergedTarget, hskip, hpe]
      · refine ⟨(runPhases (phasesOf cfg job).1 (phasesOf cfg job).2.1
            (phasesOf cfg job).2.2 w).events, ?_⟩
        simp [hm, h5, heq, hmem, hmo, getMergedTarget, hskip, hpe]

/-- When the merge stdout is neither short-circuit string, handling falls
through to the phases: `checkoutAndRun`'s error and trace are the phases'. -/
theorem checkoutAndRun_noskip (cfg : Config) (job : Job) (w : World) (oldTarget : String)
    (ev0 : List Event) (d : String)
    (hm : isMergeJob cfg job = true) (h5 : w.checkoutOk = true)
    (hd : w.mergeOut = some d)
    (hn1 : d ≠ "Already up to date.\n")
    (hn2 : d ≠ "Merge made by the 'recursive' strategy.\n") :
    (checkoutAndRun cfg job w oldTarget ev0).err =
      (runPhases (phasesOf cfg job).1 (phasesOf cfg job).2.1
        (phasesOf cfg job).2.2 w).err ∧
    (checkoutAndRun cfg job w oldTarget ev0).trace =
      (runPhases (phasesOf cfg job).1 (phasesOf cfg job).2.1
        (phasesOf cfg job).2.2 w).trace := by
  have hskip : (d == "Already up to date.\n" ||
      d == "Merge made by the 'recursive' strategy.\n") = false := by
    simp [hn1, hn2]
  unfold checkoutAndRun
  by_cases ht : (getTarget w.targetRefAfter == oldTarget) = true
  · rcases hpe : (runPhases (phasesOf cfg job).1 (phasesOf cfg job).2.1
        (phasesOf cfg job).2.2 w).err with _ | e <;>
      simp [hm, h5, hd, ht, hskip, hpe]
  · rw [Bool.not_eq_true] at ht
    rcases hpe : (runPhases (phasesOf cfg job).1 (phasesOf cfg job).2.1
        (phasesOf cfg job).2.2 w).err with _ | e <;>
      simp [hm, h5, hd, ht, hskip, hpe]

/-- Every byte of a job's trace comes from a script phase: with silent
phases, `handleJob` leaves the trace empty. -/
theorem handleJob_trace_empty (cfg : Config) (job : Job) (w : World)
    (hb : w.beforeOut = "") (hs : w.scriptOut = "") (ha : w.afterOut = "") :
    (handleJob cfg job w).trace = "" := by
  have hr := runPhases_trace_empty (phasesOf cfg job).1 (phasesOf cfg job).2.1
    (phasesOf cfg job).2.2 w hb hs ha
  unfold handleJob
  split
  · rfl
  · split
    · rfl
    · split
      · rfl
      · split
        · rename_i r hpr
          exact (prepareRepo_error cfg job w r hpr).2.1
        · rename_i oldTarget ev0 hpr
          rcases checkoutAndRun_trace cfg job w oldTarget ev0 with h | h
          · exact h
          · rw [h, hr]

/-- Embedded `requestJob` hands the loop a job both when one is already held and when
the poll returns one; in both cases the loop body runs and the loop
continues. -/
theorem loopStep_continued (cfg : Config) (ps : ProcState) (iw : IterWorld) (j : Job)
    (hj : ps.job = some j) : (loopStep cfg ps iw).isContinued = true := by
  unfold loopStep requestJob
  rw [hj]
  simp [IterOutcome.isContinued]

/-- Every `APIError` returned by `handleJob` stems from one of: an unmatched
job under protection, a clone failure, a fetch failure, an unknown ref type,
a checkout failure, or a failed merge; and its message is `""`. -/
theorem handleJob_apiError_causes (cfg : Config) (job : Job) (w : World) (msg : String)
    (h : (handleJob cfg job w).err = some (GoError.apiError msg)) :
    msg = "" ∧
    ((getConfigJob cfg job = none ∧ cfg.Protection = true) ∨
     (w.mkdirProj = MkdirOutcome.created ∧ w.cloneOk = false) ∨
     (w.mkdirProj ≠ MkdirOutcome.created ∧ w.fetchOk = false) ∨
     (w.mkdirProj ≠ MkdirOutcome.created ∧ isMergeJob cfg job = false ∧
        job.GitInfo.RefType ≠ "branch" ∧ job.GitInfo.RefType ≠ "tag") ∨
     w.checkoutOk = false ∨
     (isMergeJob cfg job = true ∧ w.mergeOut = none)) := by
  unfold handleJob at h
  split at h
  · rename_i hc
    simp at h
    have hp : cfg.Protection = true := by
      by_contra hp
      simp only [Bool.not_eq_true] at hp
      rw [hp] at hc
      simp at hc
    have hn : getConfigJob cfg job = none := by
      rcases hcj : getConfigJob cfg job with _ | cj
      · rfl
      · rw [hcj] at hc
        simp at hc
    exact ⟨h.symm, Or.inl ⟨hn, hp⟩⟩
  · split at h
    · simp at h
    · split at h
      · simp at h
      · split at h
        · rename_i r hpr
          obtain ⟨he, -, hc⟩ := prepareRepo_error cfg job w r hpr
          rw [he] at h
          simp at h
          refine ⟨h.symm, ?_⟩
          tauto
        · rename_i oldTarget ev0 hpr
          rcases checkoutAndRun_err_causes cfg job w oldTarget ev0 _ h with ⟨he, hc⟩ | hph
          · cases he
            exact ⟨rfl, by tauto⟩
          · exact absurd hph (runPhases_no_api _ _ _ _ _)

/-- Every non-exit, non-API error returned by `handleJob` stems from a local
failure: a `MkdirAll` failure, a `Mkdir` failure, or a phase subprocess that
could not be run at all. -/
theorem handleJob_otherError_causes (cfg : Config) (job : Job) (w : World)
    (h : (handleJob cfg job w).err = some GoError.otherError) :
    w.mkdirAllOk = false ∨ w.mkdirProj = MkdirOutcome.ioErr ∨
    w.beforeRes = ScriptResult.startErr ∨ w.scriptRes = ScriptResult.startErr := by
  unfold handleJob at h
  split at h
  · simp at h
  · split at h
    · rename_i hmk
      simp at hmk
      exact Or.inl hmk
    · split at h
      · rename_i hmk
        simp at hmk
        exact Or.inr (Or.inl hmk)
      · split at h
        · rename_i r hpr
          obtain ⟨he, -, -⟩ := prepareRepo_error cfg job w r hpr
          rw [he] at h
          simp at h
        · rename_i oldTarget ev0 hpr
          rcases checkoutAndRun_err_causes cfg job w oldTarget ev0 _ h with ⟨he, -⟩ | hph
          · simp at he
          · rcases runPhases_err_classes (phasesOf cfg job).1 (phasesOf cfg job).2.1
              (phasesOf cfg job).2.2 w with h0 | ⟨c, h0, -⟩ | ⟨h0, hc⟩ <;>
              rw [h0] at hph
            · simp at hph
            · simp at hph
            · tauto

/-- Every exit error returned by `handleJob` carries the exit code of the
`before_script` or `script` subprocess. -/
theorem handleJob_exitError_causes (cfg : Config) (job : Job) (w : World) (code : Int)
    (h : (handleJob cfg job w).err = some (GoError.exitError code)) :
    w.beforeRes = ScriptResult.exitErr code ∨ w.scriptRes = ScriptResult.exitErr code := by
  unfold handleJob at h
  split at h
  · simp at h
  · split at h
    · simp at h
    · split at h
      · simp at h
      · split at h
        · rename_i r hpr
          obtain ⟨he, -, -⟩ := prepareRepo_error cfg job w r hpr
          rw [he] at h
          simp at h
        · rename_i oldTarget ev0 hpr
          rcases checkoutAndRun_err_causes cfg job w oldTarget ev0 _ h with ⟨he, -⟩ | hph
          · simp at he
          · rcases runPhases_err_classes (phasesOf cfg job).1 (phasesOf cfg job).2.1
              (phasesOf cfg job).2.2 w with h0 | ⟨c, h0, hc⟩ | ⟨h0, -⟩ <;>
              rw [h0] at hph
            · simp at hph
            · simp at hph
              rw [hph] at hc
              exact hc
            · simp at hph

/-! Claim theorems. -/

/-- C1: for every job whose handling returns an error, the Report State is
classified exactly by the error's kind — a phase subprocess non-zero exit is
reported `failed`/`script_failure` with the subprocess's exit code (and only
phase subprocesses produce that kind); a coordinator/workspace failure
(unmatched job under protection, clone/fetch failure, unknown ref type,
checkout failure, failed merge) is reported `api_failure` with sentinel exit
code 127; any other local error (directory creation, unrunnable phase) is
reported `runner_system_failure` with sentinel 128 — and the loop continues
with the next iteration whenever a job was handled. -/
theorem c1_failure_classification (cfg : Config) (job : Job) (w : World) (prev : State) :
    (∀ code, (handleJob cfg job w).err = some (GoError.exitError code) →
       updateState prev job.Token (handleJob cfg job w).err =
         ⟨job.Token, "failed", "script_failure", code⟩ ∧
       (w.beforeRes = ScriptResult.exitErr code ∨ w.scriptRes = ScriptResult.exitErr code)) ∧
    (∀ msg, (handleJob cfg job w).err = some (GoError.apiError msg) →
       updateState prev job.Token (handleJob cfg job w).err =
         ⟨job.Token, "failed", "api_failure", 127⟩ ∧
       ((getConfigJob cfg job = none ∧ cfg.Protection = true) ∨
        (w.mkdirProj = MkdirOutcome.created ∧ w.cloneOk = false) ∨
        (w.mkdirProj ≠ MkdirOutcome.created ∧ w.fetchOk = false) ∨
        (w.mkdirProj ≠ MkdirOutcome.created ∧ isMergeJob cfg job = false ∧
          job.GitInfo.RefType ≠ "branch" ∧ job.GitInfo.RefType ≠ "tag") ∨
        w.checkoutOk = false ∨
        (isMergeJob cfg job = true ∧ w.mergeOut = none))) ∧
    ((handleJob cfg job w).err = some GoError.otherError →
       updateState prev job.Token (handleJob cfg job w).err =
         ⟨job.Token, "failed", "runner_system_failure", 128⟩ ∧
       (w.mkdirAllOk = false ∨ w.mkdirProj = MkdirOutcome.ioErr ∨
        w.beforeRes = ScriptResult.startErr ∨ w.scriptRes = ScriptResult.startErr)) ∧
    (∀ ps iw j, ps.job = some j → (loopStep cfg ps iw).isContinued = true) := by
  refine ⟨?_, ?_, ?_, ?_⟩
  · intro code h
    rw [h]
    exact ⟨rfl, handleJob_exitError_causes cfg job w code h⟩
  · intro msg h
    rw [h]
    exact ⟨rfl, (handleJob_apiError_causes cfg job w msg h).2⟩
  · intro h
    rw [h]
    exact ⟨rfl, handleJob_otherError_causes cfg job w h⟩
  · intro ps iw j hj
    exact loopStep_continued cfg ps iw j hj

/-- Witness for C1: a concrete job whose `script` phase exits 3 is reported
`failed`/`script_failure`/3. -/
theorem c1_failure_classification_witness :
    updateState baseState basePlainJob.Token (handleJob baseConfig basePlainJob wC1).err =
      ⟨basePlainJob.Token, "failed", "script_failure", 3⟩ ∧
    (wC1.beforeRes = ScriptResult.exitErr 3 ∨ wC1.scriptRes = ScriptResult.exitErr 3) :=
  (c1_failure_classification baseConfig basePlainJob wC1 baseState).1 3 (by decide)

/-- C4: with all three phases present, a `before_script` non-zero exit aborts
the job at once (`script` and `after_script` never run) and is a script
failure with that exit code; a `script` non-zero exit still lets
`after_script` run; `after_script`'s own outcome never changes the returned
error; the outcome is success iff `before_script` and `script` both ran
cleanly; and an exit error is always classified `script_failure`. -/
theorem c4_phase_policy (b s a : List String) (w : World) :
    (∀ code, w.beforeRes = ScriptResult.exitErr code →
       runPhases (some b) (some s) (some a) w =
         ⟨some (GoError.exitError code), [Event.runScript b], w.beforeOut⟩) ∧
    (w.beforeRes = ScriptResult.ok → ∀ code, w.scriptRes = ScriptResult.exitErr code →
       (runPhases (some b) (some s) (some a) w).err = some (GoError.exitError code) ∧
       Event.runScript a ∈ (runPhases (some b) (some s) (some a) w).events) ∧
    (∀ res out, (runPhases (some b) (some s) (some a)
        { w with afterRes := res, afterOut := out }).err =
      (runPhases (some b) (some s) (some a) w).err) ∧
    ((runPhases (some b) (some s) (some a) w).err = none ↔
       w.beforeRes = ScriptResult.ok ∧ w.scriptRes = ScriptResult.ok) ∧
    (∀ prev tok code,
       (updateState prev tok (some (GoError.exitError code))).Failure = "script_failure") := by
  refine ⟨?_, ?_, ?_, ?_, ?_⟩
  · intro code hb
    simp [runPhases, handleScript, hb]
  · intro hb code hsc
    simp [runPhases, handleScript, hb, hsc]
  · intro res out
    rcases hb : w.beforeRes with _ | c | _ <;> simp [runPhases, handleScript, hb]
  · rw [runPhases_err_none]
    simp
  · intro prev tok code
    rfl

/-- Witness for C4: `script` exits 3 while `after_script` exits 5; the job's
error is the script's exit 3 and `after_script` still ran. -/
theorem c4_phase_policy_witness :
    (runPhases (some ["b"]) (some ["make"]) (some ["a"]) wC4).err =
      some (GoError.exitError 3) ∧
    Event.runScript ["a"] ∈ (runPhases (some ["b"]) (some ["make"]) (some ["a"]) wC4).events :=
  (c4_phase_policy ["b"] ["make"] ["a"] wC4).2.1 (by decide) 3 (by decide)

/-- C5: with protection on and no configured job matching, `handleJob`
returns the `APIError` immediately with an empty event list — so no git
operation was attempted — and the job is reported `failed`/`api_failure`
with sentinel exit code 127. -/
theorem c5_protection_enforcement (cfg : Config) (job : Job) (w : World) (prev : State)
    (hfound : getConfigJob cfg job = none) (hprot : cfg.Protection = true) :
    handleJob cfg job w = ⟨some (GoError.apiError ""), [], ""⟩ ∧
    (∀ e ∈ (handleJob cfg job w).events, e.isGit = false) ∧
    updateState prev job.Token (handleJob cfg job w).err =
      ⟨job.Token, "failed", "api_failure", 127⟩ := by
  have h : handleJob cfg job w = ⟨some (GoError.apiError ""), [], ""⟩ := by
    unfold handleJob
    rw [hfound, hprot]
    simp
  refine ⟨h, ?_, ?_⟩
  · rw [h]
    intro e he
    simp at he
  · rw [h]
    rfl

/-- Witness for C5 at a concrete protected configuration. -/
theorem c5_protection_enforcement_witness :
    handleJob cfgC5 baseMergeJob baseWorld = ⟨some (GoError.apiError ""), [], ""⟩ ∧
    (∀ e ∈ (handleJob cfgC5 baseMergeJob baseWorld).events, e.isGit = false) ∧
    updateState baseState baseMergeJob.Token (handleJob cfgC5 baseMergeJob baseWorld).err =
      ⟨baseMergeJob.Token, "failed", "api_failure", 127⟩ :=
  c5_protection_enforcement cfgC5 baseMergeJob baseWorld baseState (by decide) (by decide)

/-- C9: the trace upload happens iff the trace is non-empty, in which case
the Content-Range header is `0-<byte count>`; phases that write nothing leave
the trace empty so no upload happens; and the loop's single per-job
`sendTrace` call uploads exactly under that condition. -/
theorem c9_trace_upload (cfg : Config) (job : Job) (w : World) (t : String) :
    ((sendTrace t).1 = true ↔ 0 < t.utf8ByteSize) ∧
    ((sendTrace t).2 =
      if 0 < t.utf8ByteSize then some ("0-" ++ toString t.utf8ByteSize) else none) ∧
    (w.beforeOut = "" → w.scriptOut = "" → w.afterOut = "" →
      (handleJob cfg job w).trace = "" ∧
      (sendTrace (handleJob cfg job w).trace).1 = false) ∧
    (∀ ps iw, ps.job = some job → iw.hw = w →
      (loopStep cfg ps iw).didUpload = (sendTrace (handleJob cfg job w).trace).1) := by
  refine ⟨?_, ?_, ?_, ?_⟩
  · unfold sendTrace
    split
    · rename_i hle
      simp
      omega
    · rename_i hle
      simp
      omega
  · by_cases hz : t.utf8ByteSize ≤ 0
    · have h0 : t.utf8ByteSize = 0 := Nat.le_zero.mp hz
      simp [sendTrace, h0]
    · have h0 : 0 < t.utf8ByteSize := by omega
      simp [sendTrace, h0, hz]
  · intro hb hs ha
    have ht := handleJob_trace_empty cfg job w hb hs ha
    refine ⟨ht, ?_⟩
    rw [ht]
    decide
  · intro ps iw hj hhw
    unfold loopStep requestJob
    rw [hj]
    simp [IterOutcome.didUpload, hhw]

/-- Witness for C9: with silent phases the trace stays empty and no upload
happens. -/
theorem c9_trace_upload_witness :
    (handleJob baseConfig baseMergeJob baseWorld).trace = "" ∧
    (sendTrace (handleJob baseConfig baseMergeJob baseWorld).trace).1 = false :=
  (c9_trace_upload baseConfig baseMergeJob baseWorld "hi").2.2.1 rfl rfl rfl

/-- C6 counterexample: (a) an unreadable (open-failure) persisted lease does
not make the process exit non-zero — `loadLease` silently treats it as
absent; (b) when the lease file cannot be opened for writing, a polled job is
returned without having been persisted; (c) an acquire step that holds no
in-memory job polls the coordinator even though a readable persisted lease
exists, instead of returning that lease's job. -/
theorem c6_lease_counterexample :
    loadLease LeaseFileState.openFailed = Except.ok none ∧
    loadLease LeaseFileState.openFailed ≠ Except.error () ∧
    requestJob none (PollResult.newJob baseMergeJob) false none =
      Except.ok ⟨some baseMergeJob, none, true, false⟩ ∧
    requestJob none PollResult.noJob true (some baseMergeJob) =
      Except.ok ⟨none, some baseMergeJob, true, false⟩ :=
  ⟨rfl, fun h => Except.noConfusion h, rfl, rfl⟩

/-- C6 amended: a held in-memory job (loaded from the lease at startup) is
returned without polling; a polled job is persisted before being returned
when the lease file can be written, and is returned unpersisted otherwise;
a persisted lease that opens but fails to decode is fatal, while one that
cannot be opened (and an absent one) is silently treated as absent. -/
theorem c6_lease_amended (j : Job) (lease : Option Job) (poll : PollResult) (p : Bool) :
    requestJob (some j) poll p lease = Except.ok ⟨some j, lease, false, false⟩ ∧
    requestJob none (PollResult.newJob j) true lease = Except.ok ⟨some j, some j, true, true⟩ ∧
    requestJob none (PollResult.newJob j) false lease = Except.ok ⟨some j, lease, true, false⟩ ∧
    loadLease (LeaseFileState.present (some j)) = Except.ok (some j) ∧
    loadLease (LeaseFileState.present none) = Except.error () ∧
    loadLease LeaseFileState.openFailed = Except.ok none ∧
    loadLease LeaseFileState.absent = Except.ok none :=
  ⟨rfl, rfl, rfl, rfl, rfl, rfl, rfl⟩

/-- C7 counterexample: an iteration polls a job, persists it as the lease,
handles it and sends its final report — yet the lease file still holds that
completed job when the iteration is over (deletion only happens at loop
exit). -/
theorem c7_lease_release_counterexample :
    (loopStep baseConfig psIdle iwRun).isContinued = true ∧
    (loopStep baseConfig psIdle iwRun).reportOf ≠ none ∧
    (loopStep baseConfig psIdle iwRun).leaseAfter = some baseMergeJob := by decide

/-- C7 amended: after an iteration that handled a job the lease file is not
deleted — it keeps whatever the acquire step left (the just-handled job when
it was polled and persisted) — and the `os.Remove` of the lease happens only
once the loop exits; within one process run the completed job is nonetheless
not re-run because the in-memory job is cleared. -/
theorem c7_lease_release_amended (cfg : Config) (ps : ProcState) (iw : IterWorld) (j : Job) :
    (ps.job = some j →
       (loopStep cfg ps iw).isContinued = true ∧
       (loopStep cfg ps iw).leaseAfter = ps.leaseFile) ∧
    (ps.job = none → iw.poll = PollResult.newJob j → iw.persistOk = true →
       (loopStep cfg ps iw).isContinued = true ∧
       (loopStep cfg ps iw).leaseAfter = some j) ∧
    (∀ l, afterLoop l = none) := by
  refine ⟨?_, ?_, fun l => rfl⟩
  · intro hj
    unfold loopStep requestJob
    rw [hj]
    simp [IterOutcome.isContinued, IterOutcome.leaseAfter]
  · intro hj hpoll hper
    unfold loopStep requestJob
    rw [hj, hpoll, hper]
    simp [IterOutcome.isContinued, IterOutcome.leaseAfter]

/-- Witness for C7 amended at a concrete held job. -/
theorem c7_lease_release_amended_witness :
    (loopStep baseConfig psHeld iwRun).isContinued = true ∧
    (loopStep baseConfig psHeld iwRun).leaseAfter = psHeld.leaseFile :=
  (c7_lease_release_amended baseConfig psHeld iwRun baseMergeJob).1 rfl

/-- C8 counterexample: an iteration that executed a job (its script phase
ran) still sleeps before looping, with the configured positive timeout. -/
theorem c8_idle_backoff_counterexample :
    baseConfig.TimeoutBetweenJobs = 1 ∧
    (loopStep baseConfig psIdle iwRun).isContinued = true ∧
    Event.runScript ["make"] ∈ (loopStep baseConfig psIdle iwRun).eventsOf ∧
    (loopStep baseConfig psIdle iwRun).didSleep = true := by decide

/-- C8 amended: the sleep happens after every iteration that handled a job
whenever `TimeoutBetweenJobs` is positive; when no job is available the loop
exits immediately without sleeping — there is no idle backoff-and-retry. -/
theorem c8_idle_backoff_amended (cfg : Config) (ps : ProcState) (iw : IterWorld) (j : Job) :
    (ps.job = some j →
       (loopStep cfg ps iw).didSleep = decide (0 < cfg.TimeoutBetweenJobs)) ∧
    (ps.job = none → iw.poll = PollResult.noJob →
       loopStep cfg ps iw = IterOutcome.exitLoop ps.leaseFile) := by
  refine ⟨?_, ?_⟩
  · intro hj
    unfold loopStep requestJob
    rw [hj]
    simp [IterOutcome.didSleep]
  · intro hj hpoll
    unfold loopStep requestJob
    rw [hj, hpoll]

/-- Witness for C8 amended at a concrete handled job. -/
theorem c8_idle_backoff_amended_witness :
    (loopStep baseConfig psHeld iwRun).didSleep =
      decide (0 < baseConfig.TimeoutBetweenJobs) :=
  (c8_idle_backoff_amended baseConfig psHeld iwRun baseMergeJob).1 rfl

/-- C10: when a merge-request job's merge subprocess succeeds with stdout
exactly "Already up to date.\n" or exactly
"Merge made by the 'recursive' strategy.\n", `handleJob` returns success
immediately: no phase subprocess runs, no merged-target ref and no pass
marker is written, the trace stays empty, and the job is still reported
success with exit code 0. -/
theorem c10_merge_short_circuit (cfg : Config) (job : Job) (w : World) (prev : State)
    (d : String)
    (hm : isMergeJob cfg job = true)
    (hgate : ¬(getConfigJob cfg job = none ∧ cfg.Protection = true))
    (h1 : w.mkdirAllOk = true)
    (h2 : w.mkdirProj ≠ MkdirOutcome.ioErr)
    (h3 : w.mkdirProj = MkdirOutcome.created → w.cloneOk = true)
    (h4 : w.mkdirProj ≠ MkdirOutcome.created → w.fetchOk = true)
    (h5 : w.checkoutOk = true)
    (hd : w.mergeOut = some d)
    (hd2 : d = "Already up to date.\n" ∨ d = "Merge made by the 'recursive' strategy.\n") :
    (handleJob cfg job w).err = none ∧
    (∀ e ∈ (handleJob cfg job w).events, e.isScriptOrCacheWrite = false) ∧
    (handleJob cfg job w).trace = "" ∧
    updateState prev job.Token (handleJob cfg job w).err =
      ⟨job.Token, "success", prev.Failure, 0⟩ := by
  obtain ⟨oldTarget, ev0, hpr, hev0⟩ := prepareRepo_succeeds cfg job w h3 h4 hm
  have hh := handleJob_gate cfg job w oldTarget ev0 hgate h1 h2 hpr
  rcases checkoutAndRun_skip cfg job w oldTarget ev0 d hm h5 hd hd2 with
    ⟨ev1, target, hev1, hcr⟩
  rw [hh, hcr]
  refine ⟨rfl, ?_, rfl, rfl⟩
  intro e he
  rcases List.mem_append.mp he with hin | hin
  · rcases hev1 with rfl | rfl
    · have := hev0 e hin
      rcases e <;> simp_all [Event.isPrepEvent, Event.isScriptOrCacheWrite]
    · rcases List.mem_append.mp hin with hin2 | hin2
      · have := hev0 e hin2
        rcases e <;> simp_all [Event.isPrepEvent, Event.isScriptOrCacheWrite]
      · simp at hin2
        subst hin2
        rfl
  · simp at hin
    rcases hin with rfl | rfl <;> rfl

/-- Witness for C10 at the concrete up-to-date merge. -/
theorem c10_merge_short_circuit_witness :
    (handleJob baseConfig baseMergeJob baseWorld).err = none ∧
    (∀ e ∈ (handleJob baseConfig baseMergeJob baseWorld).events,
      e.isScriptOrCacheWrite = false) ∧
    (handleJob baseConfig baseMergeJob baseWorld).trace = "" ∧
    updateState baseState baseMergeJob.Token
        (handleJob baseConfig baseMergeJob baseWorld).err =
      ⟨baseMergeJob.Token, "success", baseState.Failure, 0⟩ :=
  c10_merge_short_circuit baseConfig baseMergeJob baseWorld baseState
    "Already up to date.\n" (by decide) (by decide) rfl (by decide)
    (fun _ => rfl) (fun _ => rfl) rfl rfl (Or.inl rfl)

/-- C2 counterexample: on a second poll with the fetched target ref unchanged
and a memoized head `deadbeef` present, the memoized head is checked out
directly — but a `git merge origin/feat` command IS issued right after the
checkout, contradicting "no merge command is issued on that second poll". -/
theorem c2_cache_reuse_counterexample :
    getTarget wC2.targetRefAfter = getTarget wC2.targetRefBefore ∧
    wC2.mergedRef = some "deadbeef" ∧
    (handleJob baseConfig baseMergeJob wC2).events =
      [Event.gitFetch ["fetch", "https://example.com/r.git",
        "+main:refs/remotes/origin/main", "+feat:refs/remotes/origin/feat"],
       Event.gitCheckout "deadbeef", Event.gitMerge "origin/feat"] ∧
    Event.gitMerge "origin/feat" ∈ (handleJob baseConfig baseMergeJob wC2).events := by
  decide

/-- C2 amended: when the freshly fetched target ref equals the one recorded
before the fetch and a memoized head `H` exists for the merge request, `H` is
checked out directly (everything before the checkout is an env export or the
fetch itself — no other git command, no cache invalidation), but a merge of
the source branch is still issued immediately after the checkout. -/
theorem c2_cache_reuse_amended (cfg : Config) (job : Job) (w : World) (H : String)
    (hm : isMergeJob cfg job = true)
    (hgate : ¬(getConfigJob cfg job = none ∧ cfg.Protection = true))
    (h1 : w.mkdirAllOk = true)
    (h2 : w.mkdirProj = MkdirOutcome.alreadyExists)
    (h4 : w.fetchOk = true)
    (h5 : w.checkoutOk = true)
    (heq : getTarget w.targetRefAfter = getTarget w.targetRefBefore)
    (hmem : w.mergedRef = some H) :
    ∃ pre post,
      (handleJob cfg job w).events =
        pre ++ [Event.gitCheckout H, Event.gitMerge (origin ++ sourceNameOf cfg job)] ++
          post ∧
      (∀ e ∈ pre, e.isPrepEvent = true) := by
  have h2c : w.mkdirProj ≠ MkdirOutcome.created := by
    rw [h2]
    intro hx
    cases hx
  have h2i : w.mkdirProj ≠ MkdirOutcome.ioErr := by
    rw [h2]
    intro hx
    cases hx
  have hpr := prepareRepo_fetch_merge cfg job w h2c hm h4
  have hh := handleJob_gate cfg job w _ _ hgate h1 h2i hpr
  obtain ⟨post, hevs⟩ := checkoutAndRun_reuse cfg job w _ H hm h5 (beq_iff_eq.mpr heq) hmem
  refine ⟨envEventsOf job ++ [Event.gitFetch ["fetch", job.GitInfo.RepoURL,
    "+" ++ targetNameOf cfg job ++ ":" ++ refsRemotes ++ origin ++ targetNameOf cfg job,
    "+" ++ sourceNameOf cfg job ++ ":" ++ refsRemotes ++ origin ++ sourceNameOf cfg job]],
    post, ?_, ?_⟩
  · rw [hh]
    exact hevs
  · intro e he
    rcases List.mem_append.mp he with hin | hin
    · rcases List.mem_map.mp hin with ⟨v, -, rfl⟩
      rfl
    · simp at hin
      subst hin
      rfl

/-- Witness for C2 amended at the concrete reuse world. -/
theorem c2_cache_reuse_amended_witness :
    ∃ pre post,
      (handleJob baseConfig baseMergeJob wC2).events =
        pre ++ [Event.gitCheckout "deadbeef",
          Event.gitMerge (origin ++ sourceNameOf baseConfig baseMergeJob)] ++ post ∧
      (∀ e ∈ pre, e.isPrepEvent = true) :=
  c2_cache_reuse_amended baseConfig baseMergeJob wC2 "deadbeef" (by decide) (by decide)
    rfl rfl rfl rfl rfl rfl

/-- C3 counterexample: with pass caching enabled, merge-request 7's job
passes on a first poll (its pass marker and merged-target head are written);
on a second poll the checkout resolves to exactly the memoized head
`deadbeef` the job passed against — yet a `script` subprocess still runs and
the trace is non-empty (so it would be uploaded): the job is not skipped,
because the pass markers are write-only. -/
theorem c3_pass_skip_counterexample :
    cfgC3.SavePassedJobs = true ∧
    (handleJob cfgC3 baseMergeJob wC3a).err = none ∧
    Event.savePassedJob "7" ∈ (handleJob cfgC3 baseMergeJob wC3a).events ∧
    Event.setMergedTarget "main" "7" ∈ (handleJob cfgC3 baseMergeJob wC3a).events ∧
    Event.gitCheckout "deadbeef" ∈ (handleJob cfgC3 baseMergeJob wC3b).events ∧
    Event.runScript ["make"] ∈ (handleJob cfgC3 baseMergeJob wC3b).events ∧
    (handleJob cfgC3 baseMergeJob wC3b).trace = "out" ∧
    (sendTrace (handleJob cfgC3 baseMergeJob wC3b).trace).1 = true := by
  decide

/-- C3 amended: `savePassedJob` only records the job id under the merge
request id and is never read back; a repeat merge-request job is skipped
(success, no script subprocess, empty trace, no upload) exactly when the
fresh merge subprocess reports one of the two exact stdouts — and otherwise
handling always falls through to the phases, whatever pass markers exist. -/
theorem c3_pass_skip_amended (cfg : Config) (job : Job) (w : World) (d : String)
    (hm : isMergeJob cfg job = true)
    (hgate : ¬(getConfigJob cfg job = none ∧ cfg.Protection = true))
    (h1 : w.mkdirAllOk = true)
    (h2 : w.mkdirProj ≠ MkdirOutcome.ioErr)
    (h3 : w.mkdirProj = MkdirOutcome.created → w.cloneOk = true)
    (h4 : w.mkdirProj ≠ MkdirOutcome.created → w.fetchOk = true)
    (h5 : w.checkoutOk = true)
    (hd : w.mergeOut = some d) :
    ((d = "Already up to date.\n" ∨ d = "Merge made by the 'recursive' strategy.\n") →
       (handleJob cfg job w).err = none ∧
       (∀ sc, Event.runScript sc ∉ (handleJob cfg job w).events) ∧
       (handleJob cfg job w).trace = "" ∧
       (sendTrace (handleJob cfg job w).trace).1 = false) ∧
    (d ≠ "Already up to date.\n" → d ≠ "Merge made by the 'recursive' strategy.\n" →
       (handleJob cfg job w).err =
         (runPhases (phasesOf cfg job).1 (phasesOf cfg job).2.1
           (phasesOf cfg job).2.2 w).err ∧
       (handleJob cfg job w).trace =
         (runPhases (phasesOf cfg job).1 (phasesOf cfg job).2.1
           (phasesOf cfg job).2.2 w).trace) := by
  obtain ⟨oldTarget, ev0, hpr, hev0⟩ := prepareRepo_succeeds cfg job w h3 h4 hm
  have hh := handleJob_gate cfg job w oldTarget ev0 hgate h1 h2 hpr
  constructor
  · intro hd2
    rcases checkoutAndRun_skip cfg job w oldTarget ev0 d hm h5 hd hd2 with
      ⟨ev1, target, hev1, hcr⟩
    rw [hh, hcr]
    refine ⟨rfl, ?_, rfl, rfl⟩
    intro sc hmemx
    rcases List.mem_append.mp hmemx with hin | hin
    · rcases hev1 with rfl | rfl
      · have := hev0 _ hin
        simp [Event.isPrepEvent] at this
      · rcases List.mem_append.mp hin with hin2 | hin2
        · have := hev0 _ hin2
          simp [Event.isPrepEvent] at this
        · simp at hin2
    · simp at hin
  · intro hn1 hn2
    rw [hh]
    exact checkoutAndRun_noskip cfg job w oldTarget ev0 d hm h5 hd hn1 hn2

/-- Witness for C3 amended: the concrete up-to-date second poll is skipped
with no script run, empty trace and no upload. -/
theorem c3_pass_skip_amended_witness :
    (handleJob cfgC3 baseMergeJob baseWorld).err = none ∧
    (∀ sc, Event.runScript sc ∉ (handleJob cfgC3 baseMergeJob baseWorld).events) ∧
    (handleJob cfgC3 baseMergeJob baseWorld).trace = "" ∧
    (sendTrace (handleJob cfgC3 baseMergeJob baseWorld).trace).1 = false :=
  (c3_pass_skip_amended cfgC3 baseMergeJob baseWorld "Already up to date.\n"
    (by decide) (by decide) rfl (by decide) (fun _ => rfl) (fun _ => rfl) rfl rfl).1
    (Or.inl rfl)

end Runner
